import Mathlib

/-!
Verification of the langextract-api gateway layer
(`services/langextract-api/app`): request validation, admission control,
timeout handling and result normalization, embedded shallowly in Lean.
-/

/-! ### Python value model

Engine results and loosely-typed request payloads are arbitrary Python
values.  We model the shapes `_to_json` distinguishes: dataclass
instances, lists, dicts, other objects carrying a `__dict__`, and scalar
leaves (strings, integers, booleans, `None`). -/

inductive PyScalar where
  | str (s : String)
  | int (n : Int)
  | bool (b : Bool)
  | none
  deriving DecidableEq, Repr

mutual
inductive PyVal where
  | dataclass (fields : PyFields)
  | pylist (items : PyList)
  | pydict (entries : PyFields)
  | obj (fields : PyFields)
  | scalar (s : PyScalar)
  deriving DecidableEq, Repr
inductive PyList where
  | nil
  | cons (head : PyVal) (tail : PyList)
  deriving DecidableEq, Repr
inductive PyFields where
  | nil
  | cons (key : String) (val : PyVal) (tail : PyFields)
  deriving DecidableEq, Repr
end

def PyList.toList : PyList → List PyVal
  | .nil => []
  | .cons v t => v :: t.toList

def PyFields.toList : PyFields → List (String × PyVal)
  | .nil => []
  | .cons k v t => (k, v) :: t.toList

def PyList.length (xs : PyList) : Nat := xs.toList.length

/-- Python truthiness for the values of our model (`bool(v)`). -/
def pyTruthy : PyVal → Bool
  | .scalar (.str s) => s ≠ ""
  | .scalar (.int n) => n ≠ 0
  | .scalar (.bool b) => b
  | .scalar .none => false
  | .pylist .nil => false
  | .pylist (.cons _ _) => true
  | .pydict .nil => false
  | .pydict (.cons _ _ _) => true
  | .dataclass _ => true
  | .obj _ => true

/-- `d.get(k)` on a Python dict represented as an association list
(first binding wins, as dict keys are unique). -/
def dictGet (d : List (String × PyVal)) (k : String) : Option PyVal :=
  (d.find? (fun p => p.1 = k)).map Prod.snd

/-- Truthiness of `d.get(k)`: a missing key yields `None`, which is falsy. -/
def pyTruthyOpt : Option PyVal → Bool
  | Option.none => false
  | Option.some v => pyTruthy v

/-! ### Result normalization (`_to_json`, `_normalize_result`)

`dataclasses.asdict` recursively converts dataclasses, lists and dicts
into plain data, but deep-copies any other object (including objects
with a `__dict__`) unchanged. -/

mutual
/-- `dataclasses.asdict`-style deep conversion (`_asdict_inner`):
dataclasses and dicts become dicts, lists are recursed into, any other
object is deep-copied unchanged. -/
def asdictVal : PyVal → PyVal
  | .dataclass fs => .pydict (asdictFields fs)
  | .pylist xs => .pylist (asdictList xs)
  | .pydict es => .pydict (asdictFields es)
  | .obj fs => .obj fs
  | .scalar s => .scalar s
def asdictList : PyList → PyList
  | .nil => .nil
  | .cons v t => .cons (asdictVal v) (asdictList t)
def asdictFields : PyFields → PyFields
  | .nil => .nil
  | .cons k v t => .cons k (asdictVal v) (asdictFields t)
end

mutual
/-- `_to_json` from `app/main.py`: dataclasses via `dataclasses.asdict`,
lists and dicts elementwise, objects with a `__dict__` via the dict of
their fields (`_to_json(vars(value))`, inlined here as the dict case on
the same fields), all other values unchanged. -/
def _to_json : PyVal → PyVal
  | .dataclass fs => asdictVal (.dataclass fs)
  | .pylist xs => .pylist (_to_json_list xs)
  | .pydict es => .pydict (_to_json_fields es)
  | .obj fs => .pydict (_to_json_fields fs)
  | .scalar s => .scalar s
def _to_json_list : PyList → PyList
  | .nil => .nil
  | .cons v t => .cons (_to_json v) (_to_json_list t)
def _to_json_fields : PyFields → PyFields
  | .nil => .nil
  | .cons k v t => .cons k (_to_json v) (_to_json_fields t)
end

/-- `_normalize_result` from `app/main.py`. -/
def _normalize_result (result : PyVal) : PyVal :=
  match result with
  | .pylist xs => .pydict (.cons "documents" (_to_json (.pylist xs)) .nil)
  | v => .pydict (.cons "document" (_to_json v) .nil)

mutual
/-- The conversion as the spec words it ("record-like objects become
key-value mappings of their fields" at every nesting level). -/
def specToJson : PyVal → PyVal
  | .dataclass fs => .pydict (specToJsonFields fs)
  | .pylist xs => .pylist (specToJsonList xs)
  | .pydict es => .pydict (specToJsonFields es)
  | .obj fs => .pydict (specToJsonFields fs)
  | .scalar s => .scalar s
def specToJsonList : PyList → PyList
  | .nil => .nil
  | .cons v t => .cons (specToJson v) (specToJsonList t)
def specToJsonFields : PyFields → PyFields
  | .nil => .nil
  | .cons k v t => .cons k (specToJson v) (specToJsonFields t)
end

mutual
/-- No `obj` (non-dataclass object with a `__dict__`) occurs anywhere in
the value. -/
def objFree : PyVal → Bool
  | .dataclass fs => objFreeFields fs
  | .pylist xs => objFreeList xs
  | .pydict es => objFreeFields es
  | .obj _ => false
  | .scalar _ => true
def objFreeList : PyList → Bool
  | .nil => true
  | .cons v t => objFree v && objFreeList t
def objFreeFields : PyFields → Bool
  | .nil => true
  | .cons _ v t => objFree v && objFreeFields t
end

mutual
/-- No `obj` occurs inside any dataclass subtree (the region that
`dataclasses.asdict` handles on its own). -/
def dcObjFree : PyVal → Bool
  | .dataclass fs => objFreeFields fs
  | .pylist xs => dcObjFreeList xs
  | .pydict es => dcObjFreeFields es
  | .obj fs => dcObjFreeFields fs
  | .scalar _ => true
def dcObjFreeList : PyList → Bool
  | .nil => true
  | .cons v t => dcObjFree v && dcObjFreeList t
def dcObjFreeFields : PyFields → Bool
  | .nil => true
  | .cons _ v t => dcObjFree v && dcObjFreeFields t
end

mutual
/-- Nesting depth of a value: the recursion depth `_to_json` needs.
The `obj` case costs two frames (`_to_json(vars(value))` recurses once
into the dict and once more into the values). -/
def pyDepth : PyVal → Nat
  | .dataclass _ => 1
  | .pylist xs => 1 + pyDepthList xs
  | .pydict es => 1 + pyDepthFields es
  | .obj fs => 2 + pyDepthFields fs
  | .scalar _ => 1
def pyDepthList : PyList → Nat
  | .nil => 0
  | .cons v t => max (pyDepth v) (pyDepthList t)
def pyDepthFields : PyFields → Nat
  | .nil => 0
  | .cons _ v t => max (pyDepth v) (pyDepthFields t)
end

mutual
/-- Fuel-indexed version of `_to_json`, mirroring the Python call
structure: each recursive call consumes one unit of stack.
`dataclasses.asdict` is an external library call and is not charged. -/
def toJsonFuel : Nat → PyVal → Option PyVal
  | 0, _ => Option.none
  | _ + 1, .dataclass fs => Option.some (asdictVal (.dataclass fs))
  | f + 1, .pylist xs => (toJsonFuelList f xs).map PyVal.pylist
  | f + 1, .pydict es => (toJsonFuelFields f es).map PyVal.pydict
  | f + 1, .obj fs => toJsonFuel f (.pydict fs)
  | _ + 1, .scalar s => Option.some (.scalar s)
termination_by f v => (f, sizeOf v)
def toJsonFuelList : Nat → PyList → Option PyList
  | _, .nil => Option.some .nil
  | f, .cons v t =>
    match toJsonFuel f v, toJsonFuelList f t with
    | Option.some v2, Option.some t2 => Option.some (.cons v2 t2)
    | _, _ => Option.none
termination_by f xs => (f, sizeOf xs)
def toJsonFuelFields : Nat → PyFields → Option PyFields
  | _, .nil => Option.some .nil
  | f, .cons k v t =>
    match toJsonFuel f v, toJsonFuelFields f t with
    | Option.some v2, Option.some t2 => Option.some (.cons k v2 t2)
    | _, _ => Option.none
termination_by f es => (f, sizeOf es)
end

/-! ### HTTP errors and the engine-parameter allow-list
(`_validate_language_model_params` in `app/main.py`) -/

structure HTTPException where
  status_code : Nat
  detail : String
  deriving DecidableEq, Repr

/-- The fixed allow-list of engine tuning keys from `app/main.py`. -/
def allowed_keys : List String :=
  ["temperature", "vertexai", "batch", "http_options", "top_p",
   "max_output_tokens", "candidate_count", "safety_settings"]

/-- `sorted(set(params.keys()) - allowed_keys)`: the distinct unknown
keys in ascending order. -/
def unknownKeysSorted (params : List (String × PyVal)) : List String :=
  List.insertionSort (· ≤ ·)
    (((params.map Prod.fst).filter (fun k => k ∉ allowed_keys)).dedup)

/-- `_validate_language_model_params` from `app/main.py`. -/
def _validate_language_model_params (params : Option (List (String × PyVal))) :
    Except HTTPException (Option (List (String × PyVal))) :=
  match params with
  | Option.none => .ok Option.none
  | Option.some ps =>
    let unknown := unknownKeysSorted ps
    if unknown ≠ [] then
      .error ⟨400, "Unsupported language_model_params keys: " ++ toString unknown⟩
    else
      .ok (Option.some ps)

/-! ### Credential gate (`require_api_key` in `app/auth.py`) -/

/-- `secrets.compare_digest` on strings: equality, computed in constant
time (the timing aspect is not modelled). -/
def compare_digest (a b : String) : Bool := a = b

/-- Truthiness of the optional header value (`not x_api_key`). -/
def strTruthy : Option String → Bool
  | Option.none => false
  | Option.some s => s ≠ ""

/-- `require_api_key` from `app/auth.py`, as a function of the configured
service secret and the caller-supplied header. -/
def require_api_key (service_api_key : String) (x_api_key : Option String) :
    Except HTTPException Unit :=
  if service_api_key = "" then
    .error ⟨503, "SERVICE_API_KEY is not configured."⟩
  else if !strTruthy x_api_key ||
      !compare_digest (x_api_key.getD "") service_api_key then
    .error ⟨401, "Invalid API key."⟩
  else
    .ok ()

/-! ### Integer environment parsing (`_int_env` in `app/settings.py`) -/

/-- Digits of a Python integer literal after the sign: a digit followed
by digits with single underscores allowed between digits. -/
def pyDigits : List Char → Option Nat
  | [] => Option.none
  | c :: rest =>
    if c.isDigit then pyDigitsCore (c.toNat - 48) rest else Option.none
where
  pyDigitsCore : Nat → List Char → Option Nat
    | acc, [] => Option.some acc
    | acc, '_' :: c :: rest =>
      if c.isDigit then pyDigitsCore (acc * 10 + (c.toNat - 48)) rest
      else Option.none
    | acc, c :: rest =>
      if c.isDigit then pyDigitsCore (acc * 10 + (c.toNat - 48)) rest
      else Option.none

/-- Python `int(str)`: strip surrounding whitespace, take an optional
sign, then parse the digits; any other shape raises `ValueError`
(modelled as `none`). -/
def pyParseInt (s : String) : Option Int :=
  let cs := (s.toList.dropWhile Char.isWhitespace).reverse
    |>.dropWhile Char.isWhitespace |>.reverse
  match cs with
  | '-' :: rest => (pyDigits rest).map (fun n => -(n : Int))
  | '+' :: rest => (pyDigits rest).map (fun n => (n : Int))
  | _ => (pyDigits cs).map (fun n => (n : Int))

/-- `_int_env` from `app/settings.py`: `raw = os.getenv(name)` is the
`Option String` argument; a missing variable or a `ValueError` from
`int(raw)` yields the default. -/
def _int_env (raw : Option String) (default : Int) : Int :=
  match raw with
  | Option.none => default
  | Option.some s =>
    match pyParseInt s with
    | Option.some v => v
    | Option.none => default

/-! ### Example compiler (`_build_examples` in `app/main.py`) and schemas -/

/-- `ExtractionExample` from `app/schemas.py`: `text` plus a list of
extraction dicts. -/
structure ExtractionExample where
  text : String
  extractions : List (List (String × PyVal))
  deriving DecidableEq, Repr

/-- `lx.data.Extraction` as constructed by `_build_examples`. -/
structure Extraction where
  extraction_class : PyVal
  extraction_text : PyVal
  attributes : Option PyVal
  description : Option PyVal
  deriving DecidableEq, Repr

/-- `lx.data.ExampleData` as constructed by `_build_examples`. -/
structure ExampleData where
  text : String
  extractions : List Extraction
  deriving DecidableEq, Repr

/-- The inner loop of `_build_examples`: compile one example's
extraction dicts, failing 400 at the first one whose
`extraction_class` or `extraction_text` is missing or falsy. -/
def _build_extractions :
    List (List (String × PyVal)) → Except HTTPException (List Extraction)
  | [] => .ok []
  | e :: rest =>
    let c := dictGet e "extraction_class"
    let t := dictGet e "extraction_text"
    if !pyTruthyOpt c || !pyTruthyOpt t then
      .error ⟨400,
        "Each extraction in examples must include extraction_class and extraction_text."⟩
    else
      match _build_extractions rest with
      | .error err => .error err
      | .ok tail =>
        .ok (⟨c.getD (.scalar .none), t.getD (.scalar .none),
              dictGet e "attributes", dictGet e "description"⟩ :: tail)

/-- `_build_examples` from `app/main.py`. -/
def _build_examples :
    List ExtractionExample → Except HTTPException (List ExampleData)
  | [] => .ok []
  | ex :: rest =>
    match _build_extractions ex.extractions with
    | .error err => .error err
    | .ok built =>
      match _build_examples rest with
      | .error err => .error err
      | .ok tail => .ok (⟨ex.text, built⟩ :: tail)

/-! ### Requests, settings, the engine capability and the admission gate -/

/-- The configuration values of `app/settings.py` that the endpoints
read (integers are Python ints, hence `Int`). -/
structure Settings where
  LANGEXTRACT_API_KEY : String
  DEFAULT_MODEL_ID : String
  MAX_TEXT_CHARS : Int
  MAX_EXAMPLES : Int
  MAX_WORKERS : Int
  deriving DecidableEq, Repr

/-- `ExtractRequest` from `app/schemas.py` (the fields `main.py` reads). -/
structure ExtractRequest where
  text : String
  prompt_description : String
  examples : List ExtractionExample
  model_id : String
  extraction_passes : Option Int
  max_workers : Option Int
  max_char_buffer : Option Int
  language_model_params : Option (List (String × PyVal))
  deriving DecidableEq, Repr

/-- Outcome of the engine invocation inside `asyncio.wait_for`:
a result, a deadline expiry, an `HTTPException`, or any other
exception (carrying its text, which must never reach the caller). -/
inductive EngineOutcome where
  | success (result : PyVal)
  | timeout
  | httpExc (e : HTTPException)
  | failure (err : String)
  deriving DecidableEq, Repr

/-- The named arguments the endpoint passes to `lx.extract`. -/
structure EngineCall where
  text_or_documents : String
  prompt_description : String
  examples : List ExampleData
  model_id : String
  api_key : String
  extraction_passes : Option Int
  max_workers : Option Int
  max_char_buffer : Option Int
  language_model_params : Option (List (String × PyVal))
  deriving DecidableEq, Repr

/-- Operations on the admission semaphore. -/
inductive GateOp where
  | acquire
  | release
  deriving DecidableEq, Repr

/-- `ExtractResponse` from `app/schemas.py` (the `result` dict is a
normalized `PyVal`). -/
structure ExtractResponse where
  request_id : String
  timing_ms : Int
  result : PyVal
  deriving DecidableEq, Repr

deriving instance DecidableEq for Except

/-- One run of an endpoint: the semaphore operations it performed, the
engine invocation (if any), and the HTTP outcome. -/
structure EndpointRun where
  ops : List GateOp
  engine_call : Option EngineCall
  response : Except HTTPException ExtractResponse
  deriving DecidableEq, Repr

/-- `payload.max_workers and payload.max_workers > settings.MAX_WORKERS`:
a falsy `max_workers` (`None` or `0`) short-circuits the check. -/
def workersCheckFires (w : Option Int) (maxWorkers : Int) : Bool :=
  match w with
  | Option.none => false
  | Option.some v => if v = 0 then false else decide (v > maxWorkers)

/-- `payload.model_id or settings.DEFAULT_MODEL_ID`. -/
def pyOrStr (a b : String) : String := if a = "" then b else a

/-- The validation prelude of `extract_endpoint` (`app/main.py`,
lines 164-182): the four rules in source order, each short-circuiting,
then the example compiler; on success it yields the validated engine
parameters and compiled examples. -/
def extract_validate (s : Settings) (payload : ExtractRequest) :
    Except HTTPException (Option (List (String × PyVal)) × List ExampleData) :=
  if (payload.text.length : Int) > s.MAX_TEXT_CHARS then
    .error ⟨400, "text exceeds MAX_TEXT_CHARS=" ++ toString s.MAX_TEXT_CHARS⟩
  else if (payload.examples.length : Int) > s.MAX_EXAMPLES then
    .error ⟨400, "examples exceed MAX_EXAMPLES=" ++ toString s.MAX_EXAMPLES⟩
  else if workersCheckFires payload.max_workers s.MAX_WORKERS then
    .error ⟨400, "max_workers exceeds MAX_WORKERS=" ++ toString s.MAX_WORKERS⟩
  else
    match _validate_language_model_params payload.language_model_params with
    | .error e => .error e
    | .ok lm_params =>
      match _build_examples payload.examples with
      | .error e => .error e
      | .ok examples_payload => .ok (lm_params, examples_payload)

/-- The `async with _semaphore:` dispatch block of `extract_endpoint`
(`app/main.py`, lines 184-233): acquire, run the engine under the
deadline, release on every exit path, and classify the outcome
(`asyncio.TimeoutError`, re-raised `HTTPException`, any other
exception, success). -/
def runDispatch (call : EngineCall) (request_id : String)
    (engine : EngineOutcome) (timing_ms : Int) : EndpointRun :=
  match engine with
  | .success result =>
    ⟨[.acquire, .release], Option.some call,
     .ok ⟨request_id, timing_ms, _normalize_result result⟩⟩
  | .timeout =>
    ⟨[.acquire, .release], Option.some call,
     .error ⟨500, "Request timed out. request_id=" ++ request_id⟩⟩
  | .httpExc e =>
    ⟨[.acquire, .release], Option.some call, .error e⟩
  | .failure _ =>
    ⟨[.acquire, .release], Option.some call,
     .error ⟨500, "Extraction failed. request_id=" ++ request_id⟩⟩

/-- `extract_endpoint` from `app/main.py` (`POST /v1/extract`), after
authentication.  `request_id` stands for the generated UUID, `engine`
for the behaviour of the external `lx.extract` capability and
`timing_ms` for the measured elapsed time. -/
def extract_endpoint (s : Settings) (payload : ExtractRequest)
    (request_id : String) (engine : EngineOutcome) (timing_ms : Int) :
    EndpointRun :=
  match extract_validate s payload with
  | .error e => ⟨[], Option.none, .error e⟩
  | .ok (lm_params, examples_payload) =>
    runDispatch
      ⟨payload.text, payload.prompt_description, examples_payload,
       pyOrStr payload.model_id s.DEFAULT_MODEL_ID,
       s.LANGEXTRACT_API_KEY, payload.extraction_passes,
       payload.max_workers, payload.max_char_buffer, lm_params⟩
      request_id engine timing_ms

/-! ### PDF ingestion path (`extract_pdf_endpoint` in `app/main.py`) -/

/-- Pydantic validation of one entry of `examples_json` against
`ExtractionExample` (`app/schemas.py`): a dict with a non-empty string
`text`; `extractions` defaults to `[]` and must be a list of dicts. -/
def ExtractionExample.model_validate (v : PyVal) : Option ExtractionExample :=
  match v with
  | .pydict fs =>
    match dictGet fs.toList "text" with
    | Option.some (.scalar (.str s)) =>
      if s = "" then Option.none
      else
        match dictGet fs.toList "extractions" with
        | Option.none => Option.some ⟨s, []⟩
        | Option.some (.pylist xs) =>
          (validateExtractionDicts xs.toList).map (fun l => ⟨s, l⟩)
        | Option.some _ => Option.none
    | _ => Option.none
  | _ => Option.none
where
  validateExtractionDicts : List PyVal → Option (List (List (String × PyVal)))
    | [] => Option.some []
    | .pydict fs :: rest =>
      (validateExtractionDicts rest).map (fun l => fs.toList :: l)
    | _ => Option.none

/-- `[ExtractionExample.model_validate(x) for x in examples_raw]`:
the first invalid entry fails the whole list. -/
def validateExamplesList : List PyVal → Option (List ExtractionExample)
  | [] => Option.some []
  | v :: rest =>
    match ExtractionExample.model_validate v with
    | Option.none => Option.none
    | Option.some e => (validateExamplesList rest).map (fun l => e :: l)

/-- `not file.filename or not file.filename.lower().endswith(".pdf")`,
negated.  Lowercasing and the suffix test are modelled on the character
list (ASCII case folding; the suffix being tested is ASCII). -/
def pdfFilenameOk : Option String → Bool
  | Option.none => false
  | Option.some f =>
    f ≠ "" && List.isSuffixOf ".pdf".toList (f.toList.map Char.toLower)

/-- The form fields of `POST /v1/extract-pdf` together with the results
of its external collaborators: `examples_json` is the outcome of
`json.loads` (`none` = decode error), `pdf_bytes_empty` whether
`await file.read()` returned an empty body, and `pdf_text` the output
of the PDF-to-text converter on that body. -/
structure PdfRequest where
  filename : Option String
  prompt_description : String
  examples_json : Option PyVal
  model_id : String
  extraction_passes : Int
  max_workers : Int
  max_char_buffer : Int
  pdf_bytes_empty : Bool
  pdf_text : String
  deriving DecidableEq, Repr

/-- The validation prelude of `extract_pdf_endpoint` (`app/main.py`,
lines 255-304): filename suffix, worker ceiling, JSON decoding,
non-empty array, per-example pydantic validation, non-empty body,
non-empty converted text, truncation to `MAX_TEXT_CHARS`, then the
example compiler.  Yields the text and compiled examples passed to the
engine.  (The pydantic failure detail embeds the exception text in the
source; the constant message stands for it.) -/
def pdf_validate (s : Settings) (req : PdfRequest) :
    Except HTTPException (String × List ExampleData) :=
  if !pdfFilenameOk req.filename then
    .error ⟨400, "Only PDF files are supported."⟩
  else if req.max_workers > s.MAX_WORKERS then
    .error ⟨400, "max_workers exceeds MAX_WORKERS=" ++ toString s.MAX_WORKERS⟩
  else
    match req.examples_json with
    | Option.none => .error ⟨400, "examples_json must be valid JSON."⟩
    | Option.some raw =>
      match raw with
      | .pylist .nil =>
        .error ⟨400, "examples_json must be a non-empty JSON array."⟩
      | .pylist (.cons x xs) =>
        (match validateExamplesList ((PyList.cons x xs).toList) with
         | Option.none => .error ⟨400, "Invalid examples_json format."⟩
         | Option.some examples_models =>
           if req.pdf_bytes_empty then
             .error ⟨400, "Uploaded file is empty."⟩
           else if req.pdf_text = "" then
             .error ⟨400, "Could not extract text from PDF."⟩
           else
             let text :=
               if (req.pdf_text.length : Int) > s.MAX_TEXT_CHARS then
                 req.pdf_text.take s.MAX_TEXT_CHARS.toNat
               else req.pdf_text
             match _build_examples examples_models with
             | .error e => .error e
             | .ok examples_payload => .ok (text, examples_payload))
      | _ => .error ⟨400, "examples_json must be a non-empty JSON array."⟩

/-- The `async with _semaphore:` block of `extract_pdf_endpoint`
(`app/main.py`, lines 307-334): unlike the text path, its single
`except Exception` clause turns every exception — deadline expiry
included — into the generic 500. -/
def runDispatchPdf (call : EngineCall) (request_id : String)
    (engine : EngineOutcome) (timing_ms : Int) : EndpointRun :=
  match engine with
  | .success result =>
    ⟨[.acquire, .release], Option.some call,
     .ok ⟨request_id, timing_ms, _normalize_result result⟩⟩
  | _ =>
    ⟨[.acquire, .release], Option.some call,
     .error ⟨500, "Extraction failed. request_id=" ++ request_id⟩⟩

/-- `extract_pdf_endpoint` from `app/main.py` (`POST /v1/extract-pdf`),
after authentication.  The engine call carries no
`language_model_params` (the PDF path does not accept them). -/
def extract_pdf_endpoint (s : Settings) (req : PdfRequest)
    (request_id : String) (engine : EngineOutcome) (timing_ms : Int) :
    EndpointRun :=
  match pdf_validate s req with
  | .error e => ⟨[], Option.none, .error e⟩
  | .ok (text, examples_payload) =>
    runDispatchPdf
      ⟨text, req.prompt_description, examples_payload,
       pyOrStr req.model_id s.DEFAULT_MODEL_ID, s.LANGEXTRACT_API_KEY,
       Option.some req.extraction_passes, Option.some req.max_workers,
       Option.some req.max_char_buffer, Option.none⟩
      request_id engine timing_ms

/-! ### Admission gate semantics

The semaphore is the only shared mutable state.  Requests are
symmetric, so a system of `n` concurrent dispatches is abstracted by
counters: how many have not yet acquired, how many currently hold a
slot, and the semaphore's available count.  `acquire` suspends until a
slot is free (it can only fire with `avail > 0`); `release` runs on
every exit path of the `async with` block. -/
structure GateState where
  pending : Nat
  holding : Nat
  avail : Nat
  deriving DecidableEq, Repr

/-- One scheduler step of the admission gate. -/
inductive GateStep : GateState → GateState → Prop
  | acq {p h a} : GateStep ⟨p + 1, h, a + 1⟩ ⟨p, h + 1, a⟩
  | rel {p h a} : GateStep ⟨p, h + 1, a⟩ ⟨p, h, a + 1⟩

/-- Reachability under any interleaving of gate steps. -/
def GateReaches : GateState → GateState → Prop :=
  Relation.ReflTransGen GateStep

/-! ### Concrete sample inputs used by witnesses and counterexamples -/

def sampleExample : ExtractionExample :=
  ⟨"ROMEO says hi.",
   [[("extraction_class", .scalar (.str "character")),
     ("extraction_text", .scalar (.str "ROMEO"))]]⟩

def sampleSettings : Settings :=
  ⟨"provider-key", "gemini-2.5-flash", 100000, 50, 20⟩

def sampleRequest : ExtractRequest :=
  ⟨"ROMEO meets JULIET.", "Extract characters.", [sampleExample],
   "gemini-2.5-flash", Option.some 1, Option.some 10, Option.some 1000,
   Option.none⟩

def nullWorkersRequest : ExtractRequest :=
  ⟨"ROMEO meets JULIET.", "Extract characters.", [sampleExample],
   "gemini-2.5-flash", Option.some 1, Option.none, Option.some 1000,
   Option.none⟩

/-- Settings whose worker ceiling is below the schema default of 10. -/
def lowCeilSettings : Settings :=
  ⟨"provider-key", "gemini-2.5-flash", 100000, 50, 5⟩

def onePdfExample : PyVal :=
  .pydict (.cons "text" (.scalar (.str "ROMEO says hi.")) .nil)

def samplePdfRequest : PdfRequest :=
  ⟨Option.some "play.pdf", "Extract characters.",
   Option.some (.pylist (.cons onePdfExample .nil)), "gemini-2.5-flash",
   1, 10, 1000, false, "ROMEO meets JULIET."⟩

/-- Settings capping the example count at one. -/
def capExampleSettings : Settings :=
  ⟨"provider-key", "gemini-2.5-flash", 100000, 1, 20⟩

/-- A PDF request carrying two well-formed examples. -/
def twoExamplePdfRequest : PdfRequest :=
  ⟨Option.some "play.pdf", "Extract characters.",
   Option.some (.pylist (.cons onePdfExample (.cons onePdfExample .nil))),
   "gemini-2.5-flash", 1, 10, 1000, false, "ROMEO meets JULIET."⟩

/-- A dataclass whose field holds a plain (non-dataclass) object:
`dataclasses.asdict` deep-copies the inner object unchanged. -/
def dataclassWithObjField : PyVal :=
  .dataclass (.cons "f" (.obj (.cons "x" (.scalar (.int 1)) .nil)) .nil)

/-! ### Helper lemmas -/

theorem gate_invariant {s t : GateState} (h : GateReaches s t) :
    t.holding + t.avail = s.holding + s.avail := by
  induction h with
  | refl => rfl
  | tail _ step ih => cases step <;> simp_all <;> omega

theorem mem_unknownKeysSorted (ps : List (String × PyVal)) (k : String) :
    k ∈ unknownKeysSorted ps ↔ k ∈ ps.map Prod.fst ∧ k ∉ allowed_keys := by
  simp [unknownKeysSorted, List.mem_insertionSort, List.mem_dedup,
    List.mem_filter]

theorem sorted_unknownKeysSorted (ps : List (String × PyVal)) :
    List.Sorted (· ≤ ·) (unknownKeysSorted ps) :=
  List.sorted_insertionSort _ _

/-! ### C7: the credential gate -/

/-- C7: with no configured service secret the gate always fails 503;
with one configured, an absent, empty or mismatched caller secret fails
401 and the matching secret authorizes; every failure is one of those
two distinct kinds. -/
theorem c7_credential_gate (cfg : String) (key : Option String) :
    (cfg = "" →
      require_api_key cfg key = .error ⟨503, "SERVICE_API_KEY is not configured."⟩) ∧
    (cfg ≠ "" → (key = Option.none ∨ key = Option.some "") →
      require_api_key cfg key = .error ⟨401, "Invalid API key."⟩) ∧
    (cfg ≠ "" → ∀ k, key = Option.some k → k ≠ cfg →
      require_api_key cfg key = .error ⟨401, "Invalid API key."⟩) ∧
    (cfg ≠ "" → key = Option.some cfg → require_api_key cfg key = .ok ()) ∧
    (∀ e, require_api_key cfg key = .error e →
      (e.status_code = 503 ∧ cfg = "") ∨ (e.status_code = 401 ∧ cfg ≠ "")) := by
  refine ⟨?_, ?_, ?_, ?_, ?_⟩
  · intro h
    simp [require_api_key, h]
  · intro h hk
    rcases hk with rfl | rfl <;> simp [require_api_key, h, strTruthy]
  · intro h k hk hne
    subst hk
    by_cases hk0 : k = "" <;>
      simp [require_api_key, h, hk0, strTruthy, compare_digest, hne]
  · intro h hk
    subst hk
    simp [require_api_key, h, strTruthy, compare_digest]
  · intro e he
    by_cases hc : cfg = ""
    · left
      simp [require_api_key, hc] at he
      simp [← he, hc]
    · right
      simp only [require_api_key, if_neg hc] at he
      split at he
      · injection he with h1
        exact ⟨by rw [← h1], hc⟩
      · simp at he

/-- C7 witness: concrete evaluations of the three outcomes. -/
theorem c7_credential_gate_witness :
    require_api_key "" (Option.some "s3cr3t") =
      .error ⟨503, "SERVICE_API_KEY is not configured."⟩ ∧
    require_api_key "s3cr3t" Option.none = .error ⟨401, "Invalid API key."⟩ ∧
    require_api_key "s3cr3t" (Option.some "wrong") =
      .error ⟨401, "Invalid API key."⟩ ∧
    require_api_key "s3cr3t" (Option.some "s3cr3t") = .ok () :=
  ⟨(c7_credential_gate "" (Option.some "s3cr3t")).1 rfl,
   (c7_credential_gate "s3cr3t" Option.none).2.1 (by decide) (Or.inl rfl),
   (c7_credential_gate "s3cr3t" (Option.some "wrong")).2.2.1 (by decide)
     "wrong" rfl (by decide),
   (c7_credential_gate "s3cr3t" (Option.some "s3cr3t")).2.2.2.1 (by decide) rfl⟩

/-! ### C10: integer environment parsing -/

/-- C10: an unset integer environment variable yields the built-in
default; a set but unparsable one also yields the default instead of
raising; a parsable one yields its parsed value. -/
theorem c10_int_env_default (raw : Option String) (d : Int) :
    (raw = Option.none → _int_env raw d = d) ∧
    (∀ s, raw = Option.some s → pyParseInt s = Option.none →
      _int_env raw d = d) ∧
    (∀ s v, raw = Option.some s → pyParseInt s = Option.some v →
      _int_env raw d = v) := by
  refine ⟨?_, ?_, ?_⟩
  · intro h
    simp [_int_env, h]
  · intro s hs hp
    simp [_int_env, hs, hp]
  · intro s v hs hp
    simp [_int_env, hs, hp]

/-- C10 witness: the malformed value `"4x"` and the unset case both fall
back to the default 120, and `" 42 "` parses. -/
theorem c10_int_env_default_witness :
    _int_env Option.none 120 = 120 ∧
    _int_env (Option.some "4x") 120 = 120 ∧
    _int_env (Option.some " 42 ") 120 = 42 :=
  ⟨(c10_int_env_default Option.none 120).1 rfl,
   (c10_int_env_default (Option.some "4x") 120).2.1 "4x" rfl (by decide),
   (c10_int_env_default (Option.some " 42 ") 120).2.2 " 42 " 42 rfl (by decide)⟩

/-! ### C6: the engine-parameter allow-list -/

/-- C6: a mapping with any key outside the allow-list is rejected 400
with a detail listing exactly the distinct unknown keys in sorted
order; a mapping whose keys are all allowed passes through unchanged. -/
theorem c6_engine_params_allowlist (ps : List (String × PyVal)) :
    ((∃ k, k ∈ ps.map Prod.fst ∧ k ∉ allowed_keys) →
      _validate_language_model_params (Option.some ps) =
        .error ⟨400, "Unsupported language_model_params keys: " ++
          toString (unknownKeysSorted ps)⟩ ∧
      List.Sorted (· ≤ ·) (unknownKeysSorted ps) ∧
      (∀ k, k ∈ unknownKeysSorted ps ↔ k ∈ ps.map Prod.fst ∧ k ∉ allowed_keys)) ∧
    ((∀ k ∈ ps.map Prod.fst, k ∈ allowed_keys) →
      _validate_language_model_params (Option.some ps) = .ok (Option.some ps)) := by
  constructor
  · rintro ⟨k, hk, hka⟩
    have hne : unknownKeysSorted ps ≠ [] := by
      intro hnil
      have := (mem_unknownKeysSorted ps k).mpr ⟨hk, hka⟩
      rw [hnil] at this
      exact absurd this (List.not_mem_nil k)
    refine ⟨?_, sorted_unknownKeysSorted ps, fun k => mem_unknownKeysSorted ps k⟩
    simp [_validate_language_model_params, hne]
  · intro hall
    have hnil : unknownKeysSorted ps = [] := by
      rw [List.eq_nil_iff_forall_not_mem]
      intro k hk
      have := (mem_unknownKeysSorted ps k).mp hk
      exact this.2 (hall k this.1)
    simp [_validate_language_model_params, hnil]

/-- C6 witness: one unknown key is rejected, sorted; an allowed-only
mapping passes through. -/
theorem c6_engine_params_allowlist_witness :
    _validate_language_model_params
      (Option.some [("zz_bogus", PyVal.scalar PyScalar.none),
                    ("temperature", PyVal.scalar (PyScalar.int 1))]) =
      .error ⟨400, "Unsupported language_model_params keys: " ++
        toString (unknownKeysSorted
          [("zz_bogus", PyVal.scalar PyScalar.none),
           ("temperature", PyVal.scalar (PyScalar.int 1))])⟩ ∧
    _validate_language_model_params
      (Option.some [("temperature", PyVal.scalar (PyScalar.int 1))]) =
      .ok (Option.some [("temperature", PyVal.scalar (PyScalar.int 1))]) :=
  ⟨((c6_engine_params_allowlist _).1
      ⟨"zz_bogus", by decide, by decide⟩).1,
   (c6_engine_params_allowlist _).2 (by decide)⟩

/-! ### Normalization lemmas (for C4 and C8) -/

theorem pyDepth_pos (v : PyVal) : 1 ≤ pyDepth v := by
  cases v <;> (simp [pyDepth]; try omega)

mutual
theorem toJsonFuel_eq : ∀ (f : Nat) (v : PyVal), pyDepth v ≤ f →
    toJsonFuel f v = Option.some (_to_json v)
  | 0, v, h => absurd h (by have := pyDepth_pos v; omega)
  | f + 1, .dataclass fs, _ => by
    simp [toJsonFuel, _to_json]
  | f + 1, .pylist xs, h => by
    have h1 : pyDepthList xs ≤ f := by
      simp [pyDepth] at h; omega
    simp [toJsonFuel, _to_json, toJsonFuelList_eq f xs h1]
  | f + 1, .pydict es, h => by
    have h1 : pyDepthFields es ≤ f := by
      simp [pyDepth] at h; omega
    simp [toJsonFuel, _to_json, toJsonFuelFields_eq f es h1]
  | f + 1, .obj fs, h => by
    have h1 : pyDepth (.pydict fs) ≤ f := by
      simp [pyDepth] at h ⊢; omega
    rw [toJsonFuel, toJsonFuel_eq f (.pydict fs) h1]
    simp [_to_json]
  | f + 1, .scalar s, _ => by
    simp [toJsonFuel, _to_json]
termination_by f v => (f, sizeOf v)
theorem toJsonFuelList_eq : ∀ (f : Nat) (xs : PyList), pyDepthList xs ≤ f →
    toJsonFuelList f xs = Option.some (_to_json_list xs)
  | _, .nil, _ => by simp [toJsonFuelList, _to_json_list]
  | f, .cons v t, h => by
    have h1 : pyDepth v ≤ f := le_trans (le_max_left _ _) h
    have h2 : pyDepthList t ≤ f := le_trans (le_max_right _ _) h
    rw [toJsonFuelList, toJsonFuel_eq f v h1, toJsonFuelList_eq f t h2]
    simp [_to_json_list]
termination_by f xs => (f, sizeOf xs)
theorem toJsonFuelFields_eq : ∀ (f : Nat) (es : PyFields), pyDepthFields es ≤ f →
    toJsonFuelFields f es = Option.some (_to_json_fields es)
  | _, .nil, _ => by simp [toJsonFuelFields, _to_json_fields]
  | f, .cons k v t, h => by
    have h1 : pyDepth v ≤ f := le_trans (le_max_left _ _) h
    have h2 : pyDepthFields t ≤ f := le_trans (le_max_right _ _) h
    rw [toJsonFuelFields, toJsonFuel_eq f v h1, toJsonFuelFields_eq f t h2]
    simp [_to_json_fields]
termination_by f es => (f, sizeOf es)
end

mutual
theorem asdict_eq_spec : ∀ (v : PyVal), objFree v = true →
    asdictVal v = specToJson v
  | .dataclass fs, h => by
    rw [asdictVal, specToJson,
      asdictFields_eq_spec fs (by simpa [objFree] using h)]
  | .pylist xs, h => by
    rw [asdictVal, specToJson,
      asdictList_eq_spec xs (by simpa [objFree] using h)]
  | .pydict es, h => by
    rw [asdictVal, specToJson,
      asdictFields_eq_spec es (by simpa [objFree] using h)]
  | .obj _, h => by simp [objFree] at h
  | .scalar s, _ => by rw [asdictVal, specToJson]
theorem asdictList_eq_spec : ∀ (xs : PyList), objFreeList xs = true →
    asdictList xs = specToJsonList xs
  | .nil, _ => by rw [asdictList, specToJsonList]
  | .cons v t, h => by
    have h' := h
    simp [objFreeList] at h'
    rw [asdictList, specToJsonList, asdict_eq_spec v h'.1,
      asdictList_eq_spec t h'.2]
theorem asdictFields_eq_spec : ∀ (es : PyFields), objFreeFields es = true →
    asdictFields es = specToJsonFields es
  | .nil, _ => by rw [asdictFields, specToJsonFields]
  | .cons k v t, h => by
    have h' := h
    simp [objFreeFields] at h'
    rw [asdictFields, specToJsonFields, asdict_eq_spec v h'.1,
      asdictFields_eq_spec t h'.2]
end

mutual
theorem to_json_eq_spec : ∀ (v : PyVal), dcObjFree v = true →
    _to_json v = specToJson v
  | .dataclass fs, h => by
    rw [_to_json, asdictVal, specToJson,
      asdictFields_eq_spec fs (by simpa [dcObjFree] using h)]
  | .pylist xs, h => by
    rw [_to_json, specToJson,
      to_json_list_eq_spec xs (by simpa [dcObjFree] using h)]
  | .pydict es, h => by
    rw [_to_json, specToJson,
      to_json_fields_eq_spec es (by simpa [dcObjFree] using h)]
  | .obj fs, h => by
    rw [_to_json, specToJson,
      to_json_fields_eq_spec fs (by simpa [dcObjFree] using h)]
  | .scalar s, _ => by rw [_to_json, specToJson]
theorem to_json_list_eq_spec : ∀ (xs : PyList), dcObjFreeList xs = true →
    _to_json_list xs = specToJsonList xs
  | .nil, _ => by rw [_to_json_list, specToJsonList]
  | .cons v t, h => by
    have h' := h
    simp [dcObjFreeList] at h'
    rw [_to_json_list, specToJsonList, to_json_eq_spec v h'.1,
      to_json_list_eq_spec t h'.2]
theorem to_json_fields_eq_spec : ∀ (es : PyFields), dcObjFreeFields es = true →
    _to_json_fields es = specToJsonFields es
  | .nil, _ => by rw [_to_json_fields, specToJsonFields]
  | .cons k v t, h => by
    have h' := h
    simp [dcObjFreeFields] at h'
    rw [_to_json_fields, specToJsonFields, to_json_eq_spec v h'.1,
      to_json_fields_eq_spec t h'.2]
end

theorem to_json_list_toList : ∀ (xs : PyList),
    (_to_json_list xs).toList = xs.toList.map _to_json
  | .nil => rfl
  | .cons v t => by
    simp [_to_json_list, PyList.toList, to_json_list_toList t]

/-! ### C8: normalization is total -/

/-- C8: for every finite acyclic engine result, the unbounded recursion
of `_to_json` terminates: with any stack budget at least the value's
nesting depth, the fuelled evaluation returns a value (no failure), and
that value is `_to_json v`. -/
theorem c8_normalizer_total (v : PyVal) (f : Nat) (h : pyDepth v ≤ f) :
    toJsonFuel f v = Option.some (_to_json v) :=
  toJsonFuel_eq f v h

/-- C8 witness: a nested list/object/dict value converts at its depth. -/
theorem c8_normalizer_total_witness :
    pyDepth (PyVal.pylist (.cons
      (.obj (.cons "x" (.scalar (.int 2)) .nil)) .nil)) ≤ 4 ∧
    toJsonFuel 4 (PyVal.pylist (.cons
      (.obj (.cons "x" (.scalar (.int 2)) .nil)) .nil)) =
      Option.some (_to_json (PyVal.pylist (.cons
        (.obj (.cons "x" (.scalar (.int 2)) .nil)) .nil))) :=
  ⟨by decide,
   c8_normalizer_total
     (PyVal.pylist (.cons (.obj (.cons "x" (.scalar (.int 2)) .nil)) .nil))
     4 (by decide)⟩

/-! ### C4: result normalization shape -/

/-- C4 counterexample: for a dataclass whose field holds a plain
(non-dataclass) object, `dataclasses.asdict` deep-copies the inner
object unchanged, so the normalized result is not the fully recursive
plain-data conversion the claim describes. -/
theorem c4_normalize_counterexample :
    _normalize_result dataclassWithObjField ≠
      .pydict (.cons "document" (specToJson dataclassWithObjField) .nil) := by
  decide

/-- C4 amended: a sequence result is wrapped as `documents` and any
other result as `document`, with elementwise conversion preserving
order; the recursive conversion matches the claimed plain-data
conversion on every value with no non-dataclass object nested inside a
dataclass (such objects are deep-copied unchanged by
`dataclasses.asdict` rather than converted to mappings). -/
theorem c4_normalize_amended :
    (∀ xs : PyList, _normalize_result (.pylist xs) =
      .pydict (.cons "documents" (.pylist (_to_json_list xs)) .nil)) ∧
    (∀ v : PyVal, (∀ xs, v ≠ .pylist xs) →
      _normalize_result v = .pydict (.cons "document" (_to_json v) .nil)) ∧
    (∀ xs : PyList, (_to_json_list xs).toList = xs.toList.map _to_json) ∧
    (∀ v : PyVal, dcObjFree v = true → _to_json v = specToJson v) := by
  refine ⟨fun xs => rfl, ?_, to_json_list_toList, to_json_eq_spec⟩
  intro v hv
  cases v with
  | pylist xs => exact absurd rfl (hv xs)
  | dataclass fs => rfl
  | pydict es => rfl
  | obj fs => rfl
  | scalar s => rfl

/-- C4 witness: a two-element list wraps as `documents` in order, a
single dict result wraps as `document`, and an object-free value
converts exactly as the claim describes. -/
theorem c4_normalize_amended_witness :
    _normalize_result (.pylist (.cons (.scalar (.int 1))
      (.cons (.scalar (.int 2)) .nil))) =
      .pydict (.cons "documents" (.pylist (_to_json_list (.cons (.scalar (.int 1))
        (.cons (.scalar (.int 2)) .nil))) ) .nil) ∧
    _normalize_result (.pydict (.cons "a" (.scalar (.int 1)) .nil)) =
      .pydict (.cons "document"
        (_to_json (.pydict (.cons "a" (.scalar (.int 1)) .nil))) .nil) ∧
    _to_json (.dataclass (.cons "a" (.scalar (.int 1)) .nil)) =
      specToJson (.dataclass (.cons "a" (.scalar (.int 1)) .nil)) :=
  ⟨c4_normalize_amended.1 (.cons (.scalar (.int 1))
      (.cons (.scalar (.int 2)) .nil)),
   c4_normalize_amended.2.1 (.pydict (.cons "a" (.scalar (.int 1)) .nil))
     (fun xs h => by simp at h),
   c4_normalize_amended.2.2.2 (.dataclass (.cons "a" (.scalar (.int 1)) .nil))
     (by decide)⟩

/-! ### C1: the admission gate -/

theorem unknownKeysSorted_ne_nil {ps : List (String × PyVal)} {k : String}
    (hk : k ∈ ps.map Prod.fst) (hka : k ∉ allowed_keys) :
    unknownKeysSorted ps ≠ [] := by
  intro hnil
  have := (mem_unknownKeysSorted ps k).mpr ⟨hk, hka⟩
  rw [hnil] at this
  exact absurd this (List.not_mem_nil k)

/-- C1: both dispatch blocks acquire exactly one slot and release it on
every exit path (success, timeout, re-raised HTTP error, any other
exception); no gate operation happens when the engine is not
dispatched; and under any interleaving of acquires and releases from
capacity `C`, the number of holders never exceeds `C`, holders plus
available slots always equal `C`, and once no slot is held the
available capacity is back to `C` — no leaked slot and no double
release. -/
theorem c1_admission_gate :
    (∀ (call : EngineCall) (rid : String) (engine : EngineOutcome) (t : Int),
      (runDispatch call rid engine t).ops = [GateOp.acquire, GateOp.release]) ∧
    (∀ (call : EngineCall) (rid : String) (engine : EngineOutcome) (t : Int),
      (runDispatchPdf call rid engine t).ops = [GateOp.acquire, GateOp.release]) ∧
    (∀ (s : Settings) (p : ExtractRequest) (rid : String)
        (engine : EngineOutcome) (t : Int),
      (extract_endpoint s p rid engine t).engine_call = Option.none →
      (extract_endpoint s p rid engine t).ops = []) ∧
    (∀ (s : Settings) (r : PdfRequest) (rid : String)
        (engine : EngineOutcome) (t : Int),
      (extract_pdf_endpoint s r rid engine t).engine_call = Option.none →
      (extract_pdf_endpoint s r rid engine t).ops = []) ∧
    (∀ (C n : Nat) (st : GateState), GateReaches ⟨n, 0, C⟩ st →
      st.holding ≤ C ∧ st.holding + st.avail = C ∧
        (st.holding = 0 → st.avail = C)) := by
  refine ⟨?_, ?_, ?_, ?_, ?_⟩
  · intro call rid engine t
    cases engine <;> rfl
  · intro call rid engine t
    cases engine <;> rfl
  · intro s p rid engine t h
    unfold extract_endpoint at h ⊢
    cases hv : extract_validate s p with
    | error e => rfl
    | ok pr =>
      rw [hv] at h
      obtain ⟨lm, ex⟩ := pr
      cases engine <;> simp [runDispatch] at h
  · intro s r rid engine t h
    unfold extract_pdf_endpoint at h ⊢
    cases hv : pdf_validate s r with
    | error e => rfl
    | ok pr =>
      rw [hv] at h
      obtain ⟨text, ex⟩ := pr
      cases engine <;> simp [runDispatchPdf] at h
  · intro C n st h
    have hi := gate_invariant h
    simp only at hi
    exact ⟨by omega, by omega, fun _ => by omega⟩

/-- C1 witness: a timed-out dispatch still performs acquire + release,
and one full acquire/release cycle from capacity 1 restores the gate. -/
theorem c1_admission_gate_witness :
    (runDispatch ⟨"t", "p", [], "m", "k", Option.none, Option.none,
        Option.none, Option.none⟩ "rid" EngineOutcome.timeout 0).ops =
      [GateOp.acquire, GateOp.release] ∧
    ((⟨0, 0, 1⟩ : GateState).holding ≤ 1 ∧
     (⟨0, 0, 1⟩ : GateState).holding + (⟨0, 0, 1⟩ : GateState).avail = 1 ∧
     ((⟨0, 0, 1⟩ : GateState).holding = 0 →
       (⟨0, 0, 1⟩ : GateState).avail = 1)) :=
  ⟨c1_admission_gate.1 ⟨"t", "p", [], "m", "k", Option.none, Option.none,
      Option.none, Option.none⟩ "rid" EngineOutcome.timeout 0,
   c1_admission_gate.2.2.2.2 1 1 ⟨0, 0, 1⟩
     (Relation.ReflTransGen.tail
       (Relation.ReflTransGen.tail Relation.ReflTransGen.refl GateStep.acq)
       GateStep.rel)⟩

/-! ### C2: timeout maps to a generic 500 with the correlation id -/

/-- C2: whenever the engine invocation of a dispatched request exceeds
the deadline, the text endpoint answers 500 with exactly the generic
message plus the correlation id, and the PDF endpoint answers 500 with
its generic failure message plus the correlation id — no exception text
or trace reaches the caller. -/
theorem c2_timeout_generic_500 :
    (∀ (s : Settings) (p : ExtractRequest) (rid : String) (t : Int),
      (extract_endpoint s p rid .timeout t).engine_call.isSome →
      (extract_endpoint s p rid .timeout t).response =
        .error ⟨500, "Request timed out. request_id=" ++ rid⟩) ∧
    (∀ (s : Settings) (r : PdfRequest) (rid : String) (t : Int),
      (extract_pdf_endpoint s r rid .timeout t).engine_call.isSome →
      (extract_pdf_endpoint s r rid .timeout t).response =
        .error ⟨500, "Extraction failed. request_id=" ++ rid⟩) := by
  constructor
  · intro s p rid t h
    unfold extract_endpoint at h ⊢
    cases hv : extract_validate s p with
    | error e => rw [hv] at h; simp at h
    | ok pr =>
      obtain ⟨lm, ex⟩ := pr
      rfl
  · intro s r rid t h
    unfold extract_pdf_endpoint at h ⊢
    cases hv : pdf_validate s r with
    | error e => rw [hv] at h; simp at h
    | ok pr =>
      obtain ⟨text, ex⟩ := pr
      rfl

/-- C2 witness: a valid request timing out on each endpoint. -/
theorem c2_timeout_generic_500_witness :
    (extract_endpoint sampleSettings sampleRequest "abc123" .timeout 5).response =
      .error ⟨500, "Request timed out. request_id=" ++ "abc123"⟩ ∧
    (extract_pdf_endpoint sampleSettings samplePdfRequest "abc123" .timeout 5).response =
      .error ⟨500, "Extraction failed. request_id=" ++ "abc123"⟩ :=
  ⟨c2_timeout_generic_500.1 sampleSettings sampleRequest "abc123" 5 (by decide),
   c2_timeout_generic_500.2 sampleSettings samplePdfRequest "abc123" 5 (by decide)⟩

/-! ### C3: validation order on the text path -/

/-- C3: `/v1/extract` checks text length, then example count, then
worker ceiling, then the engine-parameter allow-list, in that order;
the first failing rule yields its 400 error (regardless of later
rules), and on any failure no gate operation happens and the engine is
never invoked. -/
theorem c3_validation_order (s : Settings) (p : ExtractRequest)
    (rid : String) (engine : EngineOutcome) (t : Int) :
    ((p.text.length : Int) > s.MAX_TEXT_CHARS →
      extract_endpoint s p rid engine t = ⟨[], Option.none, .error ⟨400,
        "text exceeds MAX_TEXT_CHARS=" ++ toString s.MAX_TEXT_CHARS⟩⟩) ∧
    (¬ (p.text.length : Int) > s.MAX_TEXT_CHARS →
      (p.examples.length : Int) > s.MAX_EXAMPLES →
      extract_endpoint s p rid engine t = ⟨[], Option.none, .error ⟨400,
        "examples exceed MAX_EXAMPLES=" ++ toString s.MAX_EXAMPLES⟩⟩) ∧
    (¬ (p.text.length : Int) > s.MAX_TEXT_CHARS →
      ¬ (p.examples.length : Int) > s.MAX_EXAMPLES →
      workersCheckFires p.max_workers s.MAX_WORKERS = true →
      extract_endpoint s p rid engine t = ⟨[], Option.none, .error ⟨400,
        "max_workers exceeds MAX_WORKERS=" ++ toString s.MAX_WORKERS⟩⟩) ∧
    (¬ (p.text.length : Int) > s.MAX_TEXT_CHARS →
      ¬ (p.examples.length : Int) > s.MAX_EXAMPLES →
      workersCheckFires p.max_workers s.MAX_WORKERS = false →
      ∀ ps, p.language_model_params = Option.some ps →
      (∃ k, k ∈ ps.map Prod.fst ∧ k ∉ allowed_keys) →
      extract_endpoint s p rid engine t = ⟨[], Option.none, .error ⟨400,
        "Unsupported language_model_params keys: " ++
          toString (unknownKeysSorted ps)⟩⟩) := by
  refine ⟨?_, ?_, ?_, ?_⟩
  · intro h1
    simp [extract_endpoint, extract_validate, h1]
  · intro h1 h2
    simp [extract_endpoint, extract_validate, h1, h2]
  · intro h1 h2 h3
    simp [extract_endpoint, extract_validate, h1, h2, h3]
  · rintro h1 h2 h3 ps hps ⟨k, hk, hka⟩
    have hne := unknownKeysSorted_ne_nil hk hka
    simp [extract_endpoint, extract_validate, h1, h2, h3, hps,
      _validate_language_model_params, hne]

/-- C3 witness: an over-long text is rejected by the first rule even
with other violations present, and a disallowed engine-parameter key is
rejected by the fourth rule once the first three pass. -/
theorem c3_validation_order_witness :
    extract_endpoint ⟨"provider-key", "m", 5, 50, 20⟩ sampleRequest "rid"
        (.success (.scalar .none)) 0 =
      ⟨[], Option.none, .error ⟨400,
        "text exceeds MAX_TEXT_CHARS=" ++ toString (5 : Int)⟩⟩ ∧
    extract_endpoint sampleSettings
        ⟨"ROMEO meets JULIET.", "Extract characters.", [], "m",
         Option.none, Option.none, Option.none,
         Option.some [("zz_bogus", PyVal.scalar PyScalar.none)]⟩ "rid"
        (.success (.scalar .none)) 0 =
      ⟨[], Option.none, .error ⟨400,
        "Unsupported language_model_params keys: " ++
          toString (unknownKeysSorted
            [("zz_bogus", PyVal.scalar PyScalar.none)])⟩⟩ :=
  ⟨(c3_validation_order ⟨"provider-key", "m", 5, 50, 20⟩ sampleRequest
      "rid" (.success (.scalar .none)) 0).1 (by decide),
   (c3_validation_order sampleSettings
      ⟨"ROMEO meets JULIET.", "Extract characters.", [], "m",
       Option.none, Option.none, Option.none,
       Option.some [("zz_bogus", PyVal.scalar PyScalar.none)]⟩ "rid"
      (.success (.scalar .none)) 0).2.2.2 (by decide) (by decide) rfl
     [("zz_bogus", PyVal.scalar PyScalar.none)] rfl
     ⟨"zz_bogus", by decide, by decide⟩⟩

/-! ### C9: an explicitly null `max_workers` skips the ceiling check -/

/-- C9: when `max_workers` is `null`, the worker-ceiling rule is
short-circuited by Python truthiness, so a request passing the other
checks is dispatched with `max_workers = None` forwarded to the engine,
even under a ceiling below the schema default of 10. -/
theorem c9_null_max_workers (s : Settings) (p : ExtractRequest)
    (rid : String) (engine : EngineOutcome) (t : Int)
    (lm : Option (List (String × PyVal))) (ex : List ExampleData)
    (_hceil : s.MAX_WORKERS < 10)
    (htext : ¬ (p.text.length : Int) > s.MAX_TEXT_CHARS)
    (hexam : ¬ (p.examples.length : Int) > s.MAX_EXAMPLES)
    (hw : p.max_workers = Option.none)
    (hlm : _validate_language_model_params p.language_model_params = .ok lm)
    (hbuild : _build_examples p.examples = .ok ex) :
    (extract_endpoint s p rid engine t).engine_call =
      Option.some ⟨p.text, p.prompt_description, ex,
        pyOrStr p.model_id s.DEFAULT_MODEL_ID, s.LANGEXTRACT_API_KEY,
        p.extraction_passes, Option.none, p.max_char_buffer, lm⟩ := by
  have hwc : workersCheckFires p.max_workers s.MAX_WORKERS = false := by
    rw [hw]; rfl
  rw [← hw]
  simp only [extract_endpoint, extract_validate, if_neg htext, if_neg hexam,
    hwc, Bool.false_eq_true, if_false, hlm, hbuild]
  cases engine <;> rfl

/-- C9 witness: the sample request with `max_workers = null` under a
ceiling of 5 is dispatched with `None` forwarded. -/
theorem c9_null_max_workers_witness :
    (extract_endpoint lowCeilSettings nullWorkersRequest "rid"
        (.success (.scalar .none)) 0).engine_call =
      Option.some ⟨nullWorkersRequest.text,
        nullWorkersRequest.prompt_description,
        [⟨"ROMEO says hi.",
          [⟨.scalar (.str "character"), .scalar (.str "ROMEO"),
            Option.none, Option.none⟩]⟩],
        pyOrStr nullWorkersRequest.model_id lowCeilSettings.DEFAULT_MODEL_ID,
        lowCeilSettings.LANGEXTRACT_API_KEY,
        nullWorkersRequest.extraction_passes, Option.none,
        nullWorkersRequest.max_char_buffer, Option.none⟩ :=
  c9_null_max_workers lowCeilSettings nullWorkersRequest "rid"
    (.success (.scalar .none)) 0 Option.none
    [⟨"ROMEO says hi.",
      [⟨.scalar (.str "character"), .scalar (.str "ROMEO"),
        Option.none, Option.none⟩]⟩]
    (by decide) (by decide) (by decide) rfl rfl (by decide)

/-! ### C5: the PDF path and the example-count rule -/

/-- C5 counterexample: with the example cap configured to 1, a PDF
request carrying two well-formed examples is not rejected: the engine
is invoked and the response is a success, so the PDF path does not
apply the text path's example-count rule. -/
theorem c5_pdf_counterexample :
    (2 : Int) > capExampleSettings.MAX_EXAMPLES ∧
    (extract_pdf_endpoint capExampleSettings twoExamplePdfRequest "rid"
        (.success (.scalar .none)) 0).engine_call.isSome = true ∧
    (extract_pdf_endpoint capExampleSettings twoExamplePdfRequest "rid"
        (.success (.scalar .none)) 0).response =
      .ok ⟨"rid", 0, .pydict (.cons "document" (.scalar .none) .nil)⟩ := by
  refine ⟨by decide, by decide, by decide⟩

/-- C5 amended: the PDF path runs its own checks (file suffix, worker
ceiling, JSON well-formedness, non-empty array, per-example shape,
non-empty body, non-empty converted text) but no example-count rule:
whenever those checks pass, the engine is invoked even if the parsed
examples list exceeds the configured maximum example count. -/
theorem c5_pdf_no_example_cap (s : Settings) (r : PdfRequest)
    (rid : String) (engine : EngineOutcome) (t : Int)
    (pr : String × List ExampleData)
    (_hcount : ∃ xs, r.examples_json = Option.some (.pylist xs) ∧
      (xs.toList.length : Int) > s.MAX_EXAMPLES)
    (hok : pdf_validate s r = .ok pr) :
    (extract_pdf_endpoint s r rid engine t).engine_call.isSome := by
  unfold extract_pdf_endpoint
  rw [hok]
  obtain ⟨text, ex⟩ := pr
  cases engine <;> simp [runDispatchPdf]

/-- C5 witness: the two-example PDF request over the cap of 1 passes
PDF validation and is dispatched. -/
theorem c5_pdf_no_example_cap_witness :
    (extract_pdf_endpoint capExampleSettings twoExamplePdfRequest "rid"
        .timeout 0).engine_call.isSome :=
  c5_pdf_no_example_cap capExampleSettings twoExamplePdfRequest "rid"
    .timeout 0
    ("ROMEO meets JULIET.", [⟨"ROMEO says hi.", []⟩, ⟨"ROMEO says hi.", []⟩])
    ⟨.cons onePdfExample (.cons onePdfExample .nil), rfl, by decide⟩
    (by decide)
